import Mathlib

/-!
# Verification of the head-impact IMU capture-and-persistence pipeline

Shallow embedding of `src/ble_app/integration/sensors_integration/sensor_integration.c`
(with constants and struct layouts from the repository's `sensors_integration.h`, which
is not part of the provided sources, modelled from the specification where needed).

Machine integers are modelled as `Nat`/`Int` with explicit `% 256` / `% 2^16` where
the C code's fixed width matters.  External bus transactions (SPI/I2C drivers) are
modelled as oracles: functions supplying each transaction's returned bytes and status.
-/

namespace SensorIntegration

/-- Raw high-g accelerometer sample (`adxl372_accel_data_t`): three signed 16-bit axes. -/
structure Adxl372AccelData where
  x : Int
  y : Int
  z : Int
deriving DecidableEq, Repr

/-- Low-g accelerometer / gyroscope sample (`icm20649_data_t`): six signed 16-bit fields. -/
structure Icm20649Data where
  accel_x : Int
  accel_y : Int
  accel_z : Int
  gyro_x : Int
  gyro_y : Int
  gyro_z : Int
deriving DecidableEq, Repr

/-- Real-time-clock sample (`ds1388_data_t`, from `ds1388.h`): eight unsigned 8-bit fields. -/
structure Ds1388Data where
  year : Nat
  month : Nat
  date : Nat
  day : Nat
  hour : Nat
  minute : Nat
  second : Nat
  hundreth : Nat
deriving DecidableEq, Repr

/-- One capture record (`impact_sample_t`): the high-g sample, the low-g/gyro sample and
the RTC timestamp, in declaration order. -/
structure ImpactSample where
  adxl_data : Adxl372AccelData
  icm_data : Icm20649Data
  ds_data : Ds1388Data
deriving DecidableEq, Repr

/-! ## Address codec (`convert_4byte_address_to_3byte_address`, lines 402-408)

The C function reinterprets the 32-bit `flash_addr` as four bytes on the little-endian
nRF52832 (`flash_addr_ptr[0]` the least significant) and emits bytes 2, 1, 0 in that
order, so the produced buffer is the low 24 bits most-significant byte first. -/

/-- `convert_4byte_address_to_3byte_address`: 3-byte device address from a 32-bit
logical address.  `flash_addr_buf[0] = flash_addr_ptr[2]`, `[1] = ptr[1]`, `[2] = ptr[0]`. -/
def convert_4byte_address_to_3byte_address (flash_addr : Nat) : List Nat :=
  [flash_addr / 2 ^ 16 % 256, flash_addr / 2 ^ 8 % 256, flash_addr % 256]

/-- Big-endian recomposition of a 3-byte device address (the mathematical inverse
direction named by the spec's round-trip property; not a function of the C file). -/
def reencode_3byte_address (b : List Nat) : Nat :=
  match b with
  | [b0, b1, b2] => b0 * 2 ^ 16 + b1 * 2 ^ 8 + b2
  | _ => 0

/-! ## Sample buffer and capture loop (`sample_impact_data`, lines 132-145)

`g_sample_set_buf` together with `g_buf_index` is a bounded buffer: the record is
appended only while `g_buf_index < MAX_SAMPLE_BUF_LENGTH`.  `MAX_SAMPLE_BUF_LENGTH`
lives in the missing header, so the capacity is a parameter `C` here.  The sensor
reads and the unit conversion are oracles/abstract functions; the low-g value stored
is `convert` applied (once) to the raw read of that iteration, mirroring
`icm20649_read_gyro_accel_data` immediately followed by `icm20649_convert_data`. -/

/-- A buffered record with the low-g/gyro component of abstract type `α`
(instantiated with `Icm20649Data`, or with an instrumented type to count
conversion applications). -/
structure SampleRec (α : Type) where
  adxl : Adxl372AccelData
  icm : α
  ds : Ds1388Data
deriving DecidableEq, Repr

/-- One call of `sample_impact_data` at iteration `t`: read the high-g sensor, read the
low-g/gyro sensor and apply the unit conversion to that fresh read, read the RTC, then
append the combined record iff the buffer is below capacity (otherwise the record is
dropped and the buffer is unchanged). -/
def sample_impact_data {α : Type} (C : Nat)
    (readAdxl : Nat → Adxl372AccelData) (readIcm : Nat → α) (convert : α → α)
    (readRtc : Nat → Ds1388Data) (t : Nat) (buf : List (SampleRec α)) :
    List (SampleRec α) :=
  let high_g := readAdxl t
  let low_g := convert (readIcm t)
  let rtc := readRtc t
  if buf.length < C then buf ++ [⟨high_g, low_g, rtc⟩] else buf

/-- The capture loop: `n` successive `sample_impact_data` calls starting from the empty
buffer (the loop body of `while (g_measurement_done == false)`, line 102-105). -/
def capture_loop {α : Type} (C : Nat)
    (readAdxl : Nat → Adxl372AccelData) (readIcm : Nat → α) (convert : α → α)
    (readRtc : Nat → Ds1388Data) : Nat → List (SampleRec α)
  | 0 => []
  | n + 1 =>
      sample_impact_data C readAdxl readIcm convert readRtc n
        (capture_loop C readAdxl readIcm convert readRtc n)

/-! ## On-flash record image and `mt25ql256aba_store_samples` (lines 357-396)

The store loop `memcpy`s `sizeof(impact_sample_t)` bytes of the record into a 32-byte
scratch buffer `buf` (zero-initialised once, before the loop), page-programs
`sizeof(buf) = 32` bytes at the cursor, reads the same 32 bytes back, and advances the
cursor by `buf_size = sizeof(buf) = 32`.  The write/read transaction return statuses
are discarded by the loop, so they are threaded here as an oracle `statuses` that the
definition binds but never inspects, exactly as the C code does. -/

/-- Little-endian byte image of a signed 16-bit field (two's complement). -/
def int16Bytes (v : Int) : List Nat :=
  [((v % 65536).toNat) % 256, ((v % 65536).toNat) / 256]

/-- Modelled from the spec: `sensors_integration.h` (not under `src/`) declares
`impact_sample_t`; the spec's data model gives three signed 16-bit high-g fields,
six signed 16-bit low-g/gyro fields and eight unsigned 8-bit timestamp fields
(decimal, not packed), so the raw byte image — little-endian 16-bit fields in
declaration order, no header, checksum or length prefix — is 26 bytes. -/
def impactSampleBytes (s : ImpactSample) : List Nat :=
  int16Bytes s.adxl_data.x ++ int16Bytes s.adxl_data.y ++ int16Bytes s.adxl_data.z ++
  int16Bytes s.icm_data.accel_x ++ int16Bytes s.icm_data.accel_y ++
  int16Bytes s.icm_data.accel_z ++ int16Bytes s.icm_data.gyro_x ++
  int16Bytes s.icm_data.gyro_y ++ int16Bytes s.icm_data.gyro_z ++
  [s.ds_data.year % 256, s.ds_data.month % 256, s.ds_data.date % 256,
   s.ds_data.day % 256, s.ds_data.hour % 256, s.ds_data.minute % 256,
   s.ds_data.second % 256, s.ds_data.hundreth % 256]

/-- The scratch-buffer size `buf_size = sizeof(buf)` with `uint8_t buf[32]` (line 360-362). -/
def store_buf_size : Nat := 32

/-- One page-program transaction issued by the store loop: the 32-bit cursor value it
was issued at and the 32-byte payload (the record's raw image followed by the scratch
buffer's untouched zero padding). -/
structure FlashWrite where
  addr : Nat
  payload : List Nat
deriving DecidableEq, Repr

/-- `mt25ql256aba_store_samples`: walks the sample buffer in order; for record `i` it
programs 32 bytes at the cursor, reads them back, and advances the cursor by
`buf_size = 32`.  `k` is the running transaction index into the status oracle; the
returned pair is the list of issued page-program transactions and the final cursor. -/
def mt25ql256aba_store_samples (statuses : Nat → Int) :
    List ImpactSample → Nat → Nat → List FlashWrite × Nat
  | [], flash_addr, _k => ([], flash_addr)
  | s :: rest, flash_addr, k =>
      let _write_ret := statuses k
      let _read_ret := statuses (k + 1)
      let payload := impactSampleBytes s ++ List.replicate (store_buf_size - 26) 0
      let out := mt25ql256aba_store_samples statuses rest (flash_addr + store_buf_size) (k + 2)
      (⟨flash_addr, payload⟩ :: out.1, out.2)

/-! ## Verification output (`serial_output_flash_data`, lines 154-217)

For each index `i < g_buf_index` the function prints an `ID = i` header and then four
independently gated groups of lines: the high-g line iff the three `adxl_data` fields
match, the low-g line iff the three `icm_data` accel fields match, the gyro line iff
the three `icm_data` gyro fields match, and the two timestamp lines iff all eight
`ds_data` fields match.  The global arrays `g_flash_output_buf` / `g_sample_set_buf`
are modelled as functions from the index. -/

/-- One line of the verification report. -/
inductive OutputLine
  | header (i : Nat)
  | highg (x y z : Int)
  | lowg (x y z : Int)
  | gyro (x y z : Int)
  | dateLine (month date year : Nat)
  | timeLine (hour minute second hundreth : Nat)
deriving DecidableEq, Repr

/-- The lines emitted for buffer index `i`, comparing the reread record `f`
(`g_flash_output_buf[i]`) against the original record `s` (`g_sample_set_buf[i]`). -/
def record_output_lines (i : Nat) (f s : ImpactSample) : List OutputLine :=
  [OutputLine.header i] ++
  (if f.adxl_data.x = s.adxl_data.x ∧ f.adxl_data.y = s.adxl_data.y ∧
      f.adxl_data.z = s.adxl_data.z then
    [OutputLine.highg f.adxl_data.x f.adxl_data.y f.adxl_data.z]
  else []) ++
  (if f.icm_data.accel_x = s.icm_data.accel_x ∧ f.icm_data.accel_y = s.icm_data.accel_y ∧
      f.icm_data.accel_z = s.icm_data.accel_z then
    [OutputLine.lowg f.icm_data.accel_x f.icm_data.accel_y f.icm_data.accel_z]
  else []) ++
  (if f.icm_data.gyro_x = s.icm_data.gyro_x ∧ f.icm_data.gyro_y = s.icm_data.gyro_y ∧
      f.icm_data.gyro_z = s.icm_data.gyro_z then
    [OutputLine.gyro f.icm_data.gyro_x f.icm_data.gyro_y f.icm_data.gyro_z]
  else []) ++
  (if f.ds_data.date = s.ds_data.date ∧ f.ds_data.day = s.ds_data.day ∧
      f.ds_data.year = s.ds_data.year ∧ f.ds_data.month = s.ds_data.month ∧
      f.ds_data.hour = s.ds_data.hour ∧ f.ds_data.minute = s.ds_data.minute ∧
      f.ds_data.second = s.ds_data.second ∧ f.ds_data.hundreth = s.ds_data.hundreth then
    [OutputLine.dateLine f.ds_data.month f.ds_data.date f.ds_data.year,
     OutputLine.timeLine f.ds_data.hour f.ds_data.minute f.ds_data.second
       f.ds_data.hundreth]
  else [])

/-- `serial_output_flash_data`: the per-record line lists for indices `0..n-1`, where
`n = g_buf_index` and `flash`, `sample` are the two global buffers. -/
def serial_output_flash_data (n : Nat) (flash sample : Nat → ImpactSample) :
    List (List OutputLine) :=
  (List.range n).map fun i => record_output_lines i (flash i) (sample i)

/-! ## Start-up identity tests (lines 286-327, 501-544, 555-613)

Each test reads fixed identity registers (reads are oracles: the values actually
returned) and either halts forever in a `while(1) __WFE();` loop or falls through.
`adxl372_startup_test` is embedded exactly as written: the first two mismatches only
log `ADXL READ TEST FAIL` and fall through; only the third mismatch halts, and the
`else` branch logs `ADXL READ TEST PASS` whenever the third identity matches. -/

/-- Whether a start-up test falls through to the next step or halts in `while(1) __WFE()`. -/
inductive TestOutcome
  | proceed
  | halt
deriving DecidableEq, Repr

/-- `mt25ql256aba_startup_test`: reads the 3 flash ID bytes; any mismatch with
`0x20 / 0xBA / 0x19` enters the indefinite wait loop. -/
def mt25ql256aba_startup_test (val0 val1 val2 : Nat) : TestOutcome :=
  if val0 ≠ 0x20 then .halt
  else if val1 ≠ 0xBA then .halt
  else if val2 ≠ 0x19 then .halt
  else .proceed

/-- `icm20649_read_test`: halts unless the WHO_AM_I register reads `0xE1`. -/
def icm20649_read_test (who_am_i : Nat) : TestOutcome :=
  if who_am_i = 0xE1 then .proceed else .halt

/-- `icm20649_write_test`: halts unless the written `0x1` reads back. -/
def icm20649_write_test (write_read : Nat) : TestOutcome :=
  if write_read = 0x1 then .proceed else .halt

/-- `adxl372_startup_test`: compares the three identity reads against
`0xAD / 0x1D / 0xFA`.  The result is the outcome together with the FAIL/PASS log
lines the function prints (informational lines omitted).  Mismatches on the first two
identities log `ADXL READ TEST FAIL` and fall through; only the third identity gates
the halt, and its `else` branch logs `ADXL READ TEST PASS`. -/
def adxl372_startup_test (device_id mst_devid devid : Nat) :
    TestOutcome × List String :=
  let log1 : List String := if device_id ≠ 0xAD then ["ADXL READ TEST FAIL"] else []
  let log2 : List String := if mst_devid ≠ 0x1D then ["ADXL READ TEST FAIL"] else []
  if devid ≠ 0xFA then
    (.halt, log1 ++ log2 ++ ["ADXL READ TEST FAIL"])
  else
    (.proceed, log1 ++ log2 ++ ["ADXL READ TEST PASS"])

/-- The self-test phase of `main` (lines 56-59): the four start-up tests in program
order; a halting test never returns, so the first halt is terminal. -/
def self_test (flashIds : Nat × Nat × Nat) (icmWhoAmI icmWriteRead : Nat)
    (adxlIds : Nat × Nat × Nat) : TestOutcome :=
  match mt25ql256aba_startup_test flashIds.1 flashIds.2.1 flashIds.2.2 with
  | .halt => .halt
  | .proceed =>
    match icm20649_read_test icmWhoAmI with
    | .halt => .halt
    | .proceed =>
      match icm20649_write_test icmWriteRead with
      | .halt => .halt
      | .proceed => (adxl372_startup_test adxlIds.1 adxlIds.2.1 adxlIds.2.2).1

/-! ## SPI status check (`spi_ret_check`, lines 458-463) -/

/-- `spi_ret_check`: logs on a negative status and returns; it never aborts or
retries, so its entire effect is the returned log lines. -/
def spi_ret_check (ret : Int) : List String :=
  if ret < 0 then ["SPI WRITE READ FAIL"] else []

/-! ## Impact-wait loop (lines 89-105)

`main` polls the high-g accelerometer every 500 ms and leaves the wait loop exactly
when `abs(x) >= IMPACT_G_THRESHOLD || abs(y) >= ... || abs(z) >= ...`. -/

/-- Modelled from the spec: `IMPACT_G_THRESHOLD` is defined in
`sensors_integration.h` (not under `src/`); the spec's happy-path scenario gives an
impact threshold of 30 exceeded by an axis reading of 35. -/
def IMPACT_G_THRESHOLD : Int := 30

/-- The wait-loop exit condition of line 94-95: some axis magnitude meets or exceeds
the threshold. -/
def impact_trigger (d : Adxl372AccelData) : Bool :=
  decide (IMPACT_G_THRESHOLD ≤ |d.x|) || decide (IMPACT_G_THRESHOLD ≤ |d.y|) ||
    decide (IMPACT_G_THRESHOLD ≤ |d.z|)

/-- `impact_wait_still_waiting readings n` — whether `main`'s impact-wait loop is
still looping after consuming the first `n` readings of the polled stream. -/
def impact_wait_still_waiting (readings : Nat → Adxl372AccelData) : Nat → Bool
  | 0 => true
  | n + 1 => impact_wait_still_waiting readings n && !impact_trigger (readings n)

/-! ## DS1388 decimal/BCD codecs (`dec2hex` / `hex2dec`, lines 859-870)

`uint8_t` arithmetic: results reduced `% 256`.  In `hex2dec` the subtraction cannot
underflow for any `val < 256`, because `6 * (val / 16) ≤ 16 * (val / 16) ≤ val`,
so truncated `Nat` subtraction agrees with the C computation. -/

/-- `dec2hex`: `val + 6 * (val / 10)` in `uint8_t`. -/
def dec2hex (val : Nat) : Nat :=
  (val + 6 * (val / 10)) % 256

/-- `hex2dec`: `val - 6 * (val >> 4)` in `uint8_t`. -/
def hex2dec (val : Nat) : Nat :=
  (val - 6 * (val / 16)) % 256

/-! ## `icm20649_multibyte_read_reg` (lines 700-719)

The function zeroes a local `buf` of `num_bytes + 1` bytes, performs one SPI
write-then-read transfer filling it, and only on a non-negative status copies
`buf[1..num_bytes]` into the caller's `reg_data`.  The transfer is an oracle: its
status `ret` and the bytes `rx` it deposits into `buf`.  `reg_data` is modelled as the
caller's byte list; `memcpy(reg_data, &buf[1], num_bytes)` overwrites its first
`num_bytes` entries. -/

/-- `icm20649_multibyte_read_reg` with the SPI transfer's status `ret` and deposited
bytes `rx` supplied as oracle inputs: returns the status and the caller's buffer
after the call. -/
def icm20649_multibyte_read_reg (ret : Int) (rx : List Nat) (reg_data : List Nat)
    (num_bytes : Nat) : Int × List Nat :=
  if 256 < num_bytes then (-1, reg_data)
  else
    let buf := (rx ++ List.replicate (num_bytes + 1) 0).take (num_bytes + 1)
    if ret < 0 then (ret, reg_data)
    else (ret, buf.drop 1 ++ reg_data.drop num_bytes)

/-! ## Concrete records used as evaluation inputs -/

/-- A concrete capture record. -/
def sample0 : ImpactSample :=
  ⟨⟨1, 2, 3⟩, ⟨4, 5, 6, 7, 8, 9⟩, ⟨10, 11, 12, 13, 14, 15, 16, 17⟩⟩

/-- `sample0` after a reread that corrupted exactly one compared field
(the high-g x axis). -/
def flash0 : ImpactSample :=
  ⟨⟨99, 2, 3⟩, ⟨4, 5, 6, 7, 8, 9⟩, ⟨10, 11, 12, 13, 14, 15, 16, 17⟩⟩

/-! ## Theorems -/

/-- C2: for every 32-bit logical flash address `A`, the 3-byte device address is the
low 24 bits of `A` most-significant byte first (top byte discarded): re-encoding the
three bytes big-endian reproduces `A % 2^24` exactly, and any two addresses with the
same low 24 bits (in particular, differing only in the discarded top byte) map to the
same 3-byte device address. -/
theorem address_codec_roundtrip (A : Nat) :
    reencode_3byte_address (convert_4byte_address_to_3byte_address A) = A % 2 ^ 24 ∧
    ∀ B : Nat, A % 2 ^ 24 = B % 2 ^ 24 →
      convert_4byte_address_to_3byte_address A = convert_4byte_address_to_3byte_address B := by
  constructor
  · simp only [convert_4byte_address_to_3byte_address, reencode_3byte_address]
    omega
  · intro B h
    simp only [convert_4byte_address_to_3byte_address, List.cons.injEq, and_true]
    omega

/-- Witness for C2 at the segment-boundary pair `0x01000123` / `0x00000123`
(differing only in the discarded top byte). -/
theorem address_codec_roundtrip_witness :
    reencode_3byte_address (convert_4byte_address_to_3byte_address 0x01000123) =
      0x01000123 % 2 ^ 24 ∧
    convert_4byte_address_to_3byte_address 0x01000123 =
      convert_4byte_address_to_3byte_address 0x00000123 :=
  ⟨(address_codec_roundtrip 0x01000123).1,
   (address_codec_roundtrip 0x01000123).2 0x00000123 (by decide)⟩

/-- C9: the decimal-to-BCD and BCD-to-decimal timestamp codecs are mutually inverse
on the valid range: for every `v ≤ 99`, `hex2dec (dec2hex v) = v`. -/
theorem dec2hex_hex2dec_roundtrip (v : Nat) (h : v ≤ 99) :
    hex2dec (dec2hex v) = v := by
  have hall : ∀ w, w < 100 → hex2dec (dec2hex w) = w := by decide
  exact hall v (by omega)

/-- Witness for C9 at `v = 59`. -/
theorem dec2hex_hex2dec_roundtrip_witness : hex2dec (dec2hex 59) = 59 :=
  dec2hex_hex2dec_roundtrip 59 (by decide)

/-- C8 counterexample: a reading whose largest axis magnitude equals the impact
threshold exactly — no axis magnitude *exceeds* the threshold, yet the trigger fires
and the system leaves the impact-wait loop after that reading. -/
theorem impact_trigger_at_threshold_counterexample :
    impact_trigger ⟨IMPACT_G_THRESHOLD, 0, 0⟩ = true ∧
    impact_wait_still_waiting (fun _ => ⟨IMPACT_G_THRESHOLD, 0, 0⟩) 1 = false ∧
    ¬(IMPACT_G_THRESHOLD < |IMPACT_G_THRESHOLD| ∨ IMPACT_G_THRESHOLD < |(0 : Int)| ∨
        IMPACT_G_THRESHOLD < |(0 : Int)|) := by
  decide

/-- C8 (amended): the system leaves the impact-wait loop exactly when a high-range
reading has some axis whose absolute value is greater than **or equal to** the fixed
impact threshold; it is still waiting after `n` readings iff every axis magnitude of
every one of those readings is strictly below the threshold. -/
theorem impact_wait_exit_iff (readings : Nat → Adxl372AccelData) (n : Nat) :
    (impact_wait_still_waiting readings n = true ↔
      ∀ j, j < n → |(readings j).x| < IMPACT_G_THRESHOLD ∧
        |(readings j).y| < IMPACT_G_THRESHOLD ∧ |(readings j).z| < IMPACT_G_THRESHOLD) ∧
    ∀ d : Adxl372AccelData, impact_trigger d = true ↔
      IMPACT_G_THRESHOLD ≤ |d.x| ∨ IMPACT_G_THRESHOLD ≤ |d.y| ∨ IMPACT_G_THRESHOLD ≤ |d.z| := by
  have htrig : ∀ d : Adxl372AccelData, impact_trigger d = true ↔
      IMPACT_G_THRESHOLD ≤ |d.x| ∨ IMPACT_G_THRESHOLD ≤ |d.y| ∨ IMPACT_G_THRESHOLD ≤ |d.z| := by
    intro d
    simp [impact_trigger, or_assoc]
  refine ⟨?_, htrig⟩
  induction n with
  | zero => simp [impact_wait_still_waiting]
  | succ n ih =>
      rw [impact_wait_still_waiting]
      rw [Bool.and_eq_true, ih, Bool.not_eq_true']
      constructor
      · rintro ⟨hall, hlast⟩ j hj
        rcases Nat.lt_succ_iff_lt_or_eq.mp hj with hlt | rfl
        · exact hall j hlt
        · have := htrig (readings j)
          rcases Bool.eq_false_iff.mp hlast with _
          constructor
          · by_contra hc
            exact absurd ((htrig (readings j)).mpr (Or.inl (le_of_not_lt hc)))
              (by simp [hlast])
          constructor
          · by_contra hc
            exact absurd ((htrig (readings j)).mpr (Or.inr (Or.inl (le_of_not_lt hc))))
              (by simp [hlast])
          · by_contra hc
            exact absurd ((htrig (readings j)).mpr (Or.inr (Or.inr (le_of_not_lt hc))))
              (by simp [hlast])
      · intro hall
        refine ⟨fun j hj => hall j (Nat.lt_succ_of_lt hj), ?_⟩
        have hn := hall n (Nat.lt_succ_self n)
        rcases Bool.eq_false_or_eq_true (impact_trigger (readings n)) with ht | hf
        · rcases (htrig (readings n)).mp ht with hx | hy | hz
          · omega
          · omega
          · omega
        · exact hf

/-- Witness for C8's amended theorem: with every axis of every reading strictly below
the threshold, the system is still in the impact-wait loop after two readings. -/
theorem impact_wait_exit_iff_witness :
    impact_wait_still_waiting (fun _ => ⟨10, -20, 0⟩) 2 = true :=
  ((impact_wait_exit_iff (fun _ => ⟨10, -20, 0⟩) 2).1).mpr
    (fun j hj => ⟨by decide, by decide, by decide⟩)

/-- C5: with correct flash and ICM identity reads but a mismatched ADXL
Analog-Devices-Inc. device id (read `0x00`, expected `0xAD`), the ADXL start-up test
logs `ADXL READ TEST FAIL`, then logs `ADXL READ TEST PASS`, and the self-test phase
falls through to arming instead of halting: only the third ADXL identity gates the
`while(1) __WFE()` halt. -/
theorem adxl_identity_mismatch_not_halted :
    adxl372_startup_test 0x00 0x1D 0xFA =
      (TestOutcome.proceed, ["ADXL READ TEST FAIL", "ADXL READ TEST PASS"]) ∧
    self_test (0x20, 0xBA, 0x19) 0xE1 0x1 (0x00, 0x1D, 0xFA) = TestOutcome.proceed := by
  constructor <;> rfl

/-- C3: the sample buffer length always satisfies `0 ≤ length ≤ C` (lengths are
natural numbers, and the capture loop started empty holds exactly `min n C` records
after `n` acquisition/append attempts); an append attempted while the buffer is at
capacity leaves the buffer — contents and length — unchanged and signals nothing,
while capture continues. -/
theorem sample_buffer_capacity {α : Type} (C n : Nat)
    (readAdxl : Nat → Adxl372AccelData) (readIcm : Nat → α) (convert : α → α)
    (readRtc : Nat → Ds1388Data) :
    (capture_loop C readAdxl readIcm convert readRtc n).length = min n C ∧
    ∀ (buf : List (SampleRec α)) (t : Nat), buf.length = C →
      sample_impact_data C readAdxl readIcm convert readRtc t buf = buf := by
  constructor
  · induction n with
    | zero => simp [capture_loop]
    | succ n ih =>
        rw [capture_loop]
        simp only [sample_impact_data]
        by_cases h : (capture_loop C readAdxl readIcm convert readRtc n).length < C
        · rw [if_pos h]
          simp only [List.length_append, List.length_cons, List.length_nil]
          omega
        · rw [if_neg h]
          omega
  · intro buf t hbuf
    simp [sample_impact_data, hbuf]

/-- Witness for C3: capacity 100 with 250 acquisition attempts yields exactly 100
buffered records, and an append onto a length-100 buffer is a no-op. -/
theorem sample_buffer_capacity_witness :
    (capture_loop 100 (fun _ => ⟨0, 0, 0⟩) (fun _ => (0 : Nat)) id
      (fun _ => ⟨0, 0, 0, 0, 0, 0, 0, 0⟩) 250).length = min 250 100 ∧
    sample_impact_data 100 (fun _ => ⟨0, 0, 0⟩) (fun _ => (0 : Nat)) id
        (fun _ => ⟨0, 0, 0, 0, 0, 0, 0, 0⟩) 250
        (List.replicate 100 ⟨⟨0, 0, 0⟩, 0, ⟨0, 0, 0, 0, 0, 0, 0, 0⟩⟩) =
      List.replicate 100 ⟨⟨0, 0, 0⟩, 0, ⟨0, 0, 0, 0, 0, 0, 0, 0⟩⟩ :=
  ⟨(sample_buffer_capacity 100 250 (fun _ => ⟨0, 0, 0⟩) (fun _ => (0 : Nat)) id
      (fun _ => ⟨0, 0, 0, 0, 0, 0, 0, 0⟩)).1,
   (sample_buffer_capacity 100 250 (fun _ => ⟨0, 0, 0⟩) (fun _ => (0 : Nat)) id
      (fun _ => ⟨0, 0, 0, 0, 0, 0, 0, 0⟩)).2
     (List.replicate 100 ⟨⟨0, 0, 0⟩, 0, ⟨0, 0, 0, 0, 0, 0, 0, 0⟩⟩) 250
     (by simp)⟩

/-- C7: in the instrumented capture loop — where each raw low-g/gyro read carries the
count of unit-conversion applications it has received (a fresh read carries `0`, and
applying `icm20649_convert_data` increments the count) — every record held in the
sample buffer after any number of iterations has conversion count exactly `1`:
the conversion is applied exactly once per record, to that record's fresh read,
before the record is appended, and never again to a buffered record. -/
theorem conversion_applied_exactly_once {α : Type} (C n : Nat)
    (readAdxl : Nat → Adxl372AccelData) (readIcmRaw : Nat → α) (convert0 : α → α)
    (readRtc : Nat → Ds1388Data) (r : SampleRec (α × Nat))
    (hr : r ∈ capture_loop C readAdxl (fun t => (readIcmRaw t, 0))
        (fun p => (convert0 p.1, p.2 + 1)) readRtc n) :
    r.icm.2 = 1 := by
  induction n with
  | zero => simp [capture_loop] at hr
  | succ n ih =>
      rw [capture_loop] at hr
      simp only [sample_impact_data] at hr
      by_cases h : (capture_loop C readAdxl (fun t => (readIcmRaw t, 0))
          (fun p => (convert0 p.1, p.2 + 1)) readRtc n).length < C
      · rw [if_pos h] at hr
        rcases List.mem_append.mp hr with h1 | h2
        · exact ih h1
        · rw [List.mem_singleton.mp h2]
      · rw [if_neg h] at hr
        exact ih hr

/-- Witness for C7: one iteration at capacity 1 buffers a single record whose
conversion count is `1`. -/
theorem conversion_applied_exactly_once_witness :
    (⟨⟨0, 0, 0⟩, (5, 1), ⟨0, 0, 0, 0, 0, 0, 0, 0⟩⟩ : SampleRec (Nat × Nat)).icm.2 = 1 :=
  conversion_applied_exactly_once 1 1 (fun _ => ⟨0, 0, 0⟩) (fun _ => 5) id
    (fun _ => ⟨0, 0, 0, 0, 0, 0, 0, 0⟩) _
    (by simp [capture_loop, sample_impact_data])

/-- Helper: full characterization of the store loop — final cursor, the addresses of
the issued page-program transactions, and their payloads — independent of the status
oracle and of the transaction counter. -/
theorem store_samples_unfolded (statuses : Nat → Int) (buf : List ImpactSample)
    (base k : Nat) :
    (mt25ql256aba_store_samples statuses buf base k).2 =
      base + store_buf_size * buf.length ∧
    (mt25ql256aba_store_samples statuses buf base k).1.map FlashWrite.addr =
      (List.range buf.length).map (fun i => base + store_buf_size * i) ∧
    (mt25ql256aba_store_samples statuses buf base k).1.map FlashWrite.payload =
      buf.map (fun s => impactSampleBytes s ++ List.replicate (store_buf_size - 26) 0) := by
  induction buf generalizing base k with
  | nil => simp [mt25ql256aba_store_samples]
  | cons s rest ih =>
      obtain ⟨ih1, ih2, ih3⟩ := ih (base + store_buf_size) (k + 2)
      refine ⟨?_, ?_, ?_⟩
      · simp only [mt25ql256aba_store_samples, List.length_cons]
        rw [ih1]
        ring
      · simp only [mt25ql256aba_store_samples, List.map_cons, List.length_cons,
          List.range_succ_eq_map, List.map_map]
        rw [ih2]
        refine congrArg₂ List.cons (by ring) ?_
        refine List.map_congr_left fun i _ => ?_
        simp only [Function.comp_apply]
        rw [Nat.mul_succ]
        omega
      · simp only [mt25ql256aba_store_samples, List.map_cons]
        rw [ih3]

/-- C4 counterexample: storing a single record from base address `0` leaves the
cursor at `32`, not at `0 + 1 * sizeof(ImpactSample)`: the raw byte image of an
`ImpactSample` is 26 bytes, but the cursor advances by the 32-byte scratch-buffer
size per stored record. -/
theorem store_cursor_advance_counterexample :
    (mt25ql256aba_store_samples (fun _ => 0) [sample0] 0 0).2 = 32 ∧
    (impactSampleBytes sample0).length = 26 ∧
    (mt25ql256aba_store_samples (fun _ => 0) [sample0] 0 0).2 ≠
      0 + 1 * (impactSampleBytes sample0).length := by
  decide

/-- C4 (amended): during the storing phase the flash write cursor only advances
forward, by exactly `buf_size = 32` bytes (the page-program scratch-buffer size) per
stored record — not by `sizeof(ImpactSample) = 26` — so after storing `k` records the
cursor equals `base + 32 * k`; record `i` is programmed at `base + 32 * i`, and each
programmed 32-byte payload is the raw 26-byte byte image of the record (no header,
no checksum, no length prefix) followed by 6 bytes of scratch-buffer zero padding. -/
theorem store_samples_cursor_advance (statuses : Nat → Int) (buf : List ImpactSample)
    (base k : Nat) :
    (mt25ql256aba_store_samples statuses buf base k).2 =
      base + store_buf_size * buf.length ∧
    (mt25ql256aba_store_samples statuses buf base k).1.map FlashWrite.addr =
      (List.range buf.length).map (fun i => base + store_buf_size * i) ∧
    (mt25ql256aba_store_samples statuses buf base k).1.map FlashWrite.payload =
      buf.map (fun s => impactSampleBytes s ++ List.replicate (store_buf_size - 26) 0) ∧
    store_buf_size = 32 ∧
    ∀ s : ImpactSample, (impactSampleBytes s).length = 26 := by
  obtain ⟨h1, h2, h3⟩ := store_samples_unfolded statuses buf base k
  refine ⟨h1, h2, h3, rfl, fun s => ?_⟩
  simp [impactSampleBytes, int16Bytes]

/-- C6: a negative bus-transaction status is non-fatal.  The store loop's result —
every transaction issued and the final cursor — is identical under any two status
oracles (and any transaction counters): no abort, retry or rollback, and all
`buf.length` records are processed in order.  `spi_ret_check` produces an empty log
exactly when the status is non-negative; its only effect is the returned log line. -/
theorem bus_status_nonfatal (statuses statuses2 : Nat → Int) (buf : List ImpactSample)
    (base k k2 : Nat) (ret : Int) :
    mt25ql256aba_store_samples statuses buf base k =
      mt25ql256aba_store_samples statuses2 buf base k2 ∧
    (mt25ql256aba_store_samples statuses buf base k).1.map FlashWrite.addr =
      (List.range buf.length).map (fun i => base + store_buf_size * i) ∧
    (mt25ql256aba_store_samples statuses buf base k).1.length = buf.length ∧
    (spi_ret_check ret = [] ↔ 0 ≤ ret) := by
  refine ⟨?_, (store_samples_unfolded statuses buf base k).2.1, ?_, ?_⟩
  · induction buf generalizing base k k2 with
    | nil => rfl
    | cons s rest ih =>
        simp only [mt25ql256aba_store_samples]
        rw [ih (base + store_buf_size) (k + 2) (k2 + 2)]
  · have := congrArg List.length (store_samples_unfolded statuses buf base k).2.2
    simpa using this
  · rw [spi_ret_check]
    split_ifs with h
    · constructor
      · intro hcon
        simp at hcon
      · intro hge
        exact absurd hge (by omega)
    · constructor
      · intro _
        omega
      · intro _
        rfl

/-- C1 counterexample: a reread record whose high-g x axis mismatches (99 vs 1) while
every other compared field matches.  The record's output is *not* entirely
suppressed: only the high-g line is dropped, while the low-g, gyro and timestamp
lines (and the header) are still emitted. -/
theorem partial_mismatch_not_whole_record_suppression :
    flash0.adxl_data.x ≠ sample0.adxl_data.x ∧
    serial_output_flash_data 1 (fun _ => flash0) (fun _ => sample0) =
      [[OutputLine.header 0, OutputLine.lowg 4 5 6, OutputLine.gyro 7 8 9,
        OutputLine.dateLine 11 12 10, OutputLine.timeLine 14 15 16 17]] := by
  decide

/-- C1 (amended): verification output is gated per field *group*, not per record:
for each buffered index the output block is determined solely by that index's
stored-then-reread record and original record (so other records are unaffected), the
`ID` header is always emitted, and each of the four groups — high-g line, low-g line,
gyro line, timestamp lines — is emitted iff every field of *that group* matches
exactly; a mismatch suppresses only the mismatched group's lines. -/
theorem serial_output_groupwise (n : Nat) (flash sample : Nat → ImpactSample)
    (i : Nat) (h : i < n) :
    (serial_output_flash_data n flash sample)[i]? =
      some (record_output_lines i (flash i) (sample i)) ∧
    ∀ (j : Nat) (f s : ImpactSample),
      (OutputLine.header j ∈ record_output_lines j f s) ∧
      (OutputLine.highg f.adxl_data.x f.adxl_data.y f.adxl_data.z ∈
          record_output_lines j f s ↔ f.adxl_data = s.adxl_data) ∧
      (OutputLine.lowg f.icm_data.accel_x f.icm_data.accel_y f.icm_data.accel_z ∈
          record_output_lines j f s ↔
        f.icm_data.accel_x = s.icm_data.accel_x ∧
          f.icm_data.accel_y = s.icm_data.accel_y ∧
          f.icm_data.accel_z = s.icm_data.accel_z) ∧
      (OutputLine.gyro f.icm_data.gyro_x f.icm_data.gyro_y f.icm_data.gyro_z ∈
          record_output_lines j f s ↔
        f.icm_data.gyro_x = s.icm_data.gyro_x ∧
          f.icm_data.gyro_y = s.icm_data.gyro_y ∧
          f.icm_data.gyro_z = s.icm_data.gyro_z) ∧
      (OutputLine.dateLine f.ds_data.month f.ds_data.date f.ds_data.year ∈
          record_output_lines j f s ↔ f.ds_data = s.ds_data) := by
  constructor
  · simp [serial_output_flash_data, List.getElem?_map, List.getElem?_range, h]
  · intro j f s
    obtain ⟨⟨fax, fay, faz⟩, ⟨fA, fB, fC, fD, fE, fF⟩, ⟨f1, f2, f3, f4, f5, f6, f7, f8⟩⟩ := f
    obtain ⟨⟨sax, say, saz⟩, ⟨sA, sB, sC, sD, sE, sF⟩, ⟨s1, s2, s3, s4, s5, s6, s7, s8⟩⟩ := s
    simp only [record_output_lines, List.append_assoc, List.cons_append,
      List.nil_append, List.mem_append, List.mem_cons, List.not_mem_nil,
      Adxl372AccelData.mk.injEq, Icm20649Data.mk.injEq, Ds1388Data.mk.injEq]
    refine ⟨by simp, ?_, ?_, ?_, ?_⟩ <;> (split_ifs <;> simp_all)

/-- Witness for C1's amended theorem at buffer length 1, index 0. -/
theorem serial_output_groupwise_witness :
    (serial_output_flash_data 1 (fun _ => flash0) (fun _ => sample0))[0]? =
      some (record_output_lines 0 flash0 sample0) :=
  (serial_output_groupwise 1 (fun _ => flash0) (fun _ => sample0) 0 (by decide)).1

/-- C10: `icm20649_multibyte_read_reg` is atomic on bus failure — for any in-range
`num_bytes` (a `uint8_t`, so at most 255), a negative SPI status is returned as-is
with the caller's `reg_data` completely unmodified, and on a non-negative status the
function returns that status and overwrites exactly the first `num_bytes` entries of
`reg_data`, leaving the rest untouched. -/
theorem multibyte_read_atomic (ret : Int) (rx reg_data : List Nat) (num_bytes : Nat)
    (h : num_bytes ≤ 255) :
    (ret < 0 →
      icm20649_multibyte_read_reg ret rx reg_data num_bytes = (ret, reg_data)) ∧
    (0 ≤ ret →
      (icm20649_multibyte_read_reg ret rx reg_data num_bytes).1 = ret ∧
      ∃ copied : List Nat, copied.length = num_bytes ∧
        (icm20649_multibyte_read_reg ret rx reg_data num_bytes).2 =
          copied ++ reg_data.drop num_bytes) := by
  have hn : ¬ 256 < num_bytes := by omega
  constructor
  · intro hneg
    simp [icm20649_multibyte_read_reg, hn, hneg]
  · intro hpos
    have hnneg : ¬ ret < 0 := by omega
    refine ⟨by simp [icm20649_multibyte_read_reg, hn, hnneg], ?_⟩
    refine ⟨((rx ++ List.replicate (num_bytes + 1) 0).take (num_bytes + 1)).drop 1,
      ?_, ?_⟩
    · simp only [List.length_drop, List.length_take, List.length_append,
        List.length_replicate]
      omega
    · simp [icm20649_multibyte_read_reg, hn, hnneg]

/-- Witness for C10: a failed transfer (`ret = -1`) leaves a 3-byte caller buffer
untouched. -/
theorem multibyte_read_atomic_witness :
    icm20649_multibyte_read_reg (-1) [0, 7, 8] [9, 9, 9] 2 = (-1, [9, 9, 9]) :=
  (multibyte_read_atomic (-1) [0, 7, 8] [9, 9, 9] 2 (by decide)).1 (by decide)

end SensorIntegration
